import Mathlib

set_option maxHeartbeats 1000000
set_option maxRecDepth 4000
set_option linter.unusedVariables false

namespace Sahayak

/-- Model of a JSON value as produced by the Python json module: the dynamic
payloads of this program (assessments, reports, the archival data file) are
such values.  Numbers are modelled as exact rationals. -/
inductive JsonVal where
  | null
  | bool (b : Bool)
  | num (q : ℚ)
  | str (s : String)
  | arr (elems : List JsonVal)
  | obj (fields : List (String × JsonVal))

mutual

/-- Structural equality of JSON values (Python `==` on parsed JSON data). -/
def JsonVal.beq : JsonVal → JsonVal → Bool
  | .null, .null => true
  | .bool a, .bool b => a == b
  | .num a, .num b => a == b
  | .str a, .str b => a == b
  | .arr xs, .arr ys => JsonVal.beqList xs ys
  | .obj fs, .obj gs => JsonVal.beqFields fs gs
  | _, _ => false

/-- Elementwise equality of JSON arrays. -/
def JsonVal.beqList : List JsonVal → List JsonVal → Bool
  | [], [] => true
  | x :: xs, y :: ys => JsonVal.beq x y && JsonVal.beqList xs ys
  | _, _ => false

/-- Fieldwise equality of JSON objects (order-sensitive, as insertion order
is preserved by Python dicts and all objects here are built in one order). -/
def JsonVal.beqFields : List (String × JsonVal) → List (String × JsonVal) → Bool
  | [], [] => true
  | (k, v) :: fs, (k', v') :: gs => k == k' && JsonVal.beq v v' && JsonVal.beqFields fs gs
  | _, _ => false

end

/-- Association lookup on the fields of a JSON object, mirroring Python dict
key access (our objects of interest all have distinct keys). -/
def jlookup (fields : List (String × JsonVal)) (k : String) : Option JsonVal :=
  match fields with
  | [] => none
  | (k', v) :: rest => if k' = k then some v else jlookup rest k

/-- Key access on a JSON value: dictionary lookup when the value is an
object, nothing otherwise. -/
def objGet (a : JsonVal) (k : String) : Option JsonVal :=
  match a with
  | .obj fs => jlookup fs k
  | _ => none

/-- Python truthiness of a JSON value, as used by the source
tests `if analysis:` and `mg.get(..., False)`. -/
def truthy : JsonVal → Bool
  | .null => false
  | .bool b => b
  | .num q => decide (q ≠ 0)
  | .str s => decide (s ≠ "")
  | .arr xs => !xs.isEmpty
  | .obj fs => !fs.isEmpty

/-- Numeric reading of a JSON value as done by the numpy mean over the score
values (Python booleans count as 0/1 numbers; other values raise). -/
def asNum : JsonVal → Option ℚ
  | .num q => some q
  | .bool b => some (if b then 1 else 0)
  | _ => none

/-- Classification of an error raised by the reasoning service, the input of
the retry predicate at the service boundary. -/
inductive ErrorClass where
  | transient
  | permanent
deriving DecidableEq

/-- Modelled external boundary: google.api_core.retry.Retry.if_transient_error,
which accepts exactly the transient-failure classifications (rate limit,
timeout, 5xx-equivalent) and rejects permanent ones. -/
def if_transient_error : ErrorClass → Bool
  | .transient => true
  | .permanent => false

/-- The configuration of a google.api_core.retry.Retry object, as passed by
the source when invoking the reasoning capability.  Time values are in
seconds, modelled as exact rationals. -/
structure RetryConfig where
  initial : ℚ
  maximum : ℚ
  multiplier : ℚ
  deadline : ℚ
  predicate : ErrorClass → Bool

/-- The retry configuration built in analyze_student_with_ai
(sahayak_analytics.py lines 56-62): Retry(initial=1.0, maximum=60.0,
multiplier=2.0, deadline=120.0, predicate=Retry.if_transient_error). -/
def analyze_retry : RetryConfig :=
  ⟨1, 60, 2, 120, if_transient_error⟩

/-- Modelled from the spec: the per-attempt backoff delay the retry object
derives from its configuration — exponential from `initial` with factor
`multiplier`, capped at `maximum` per attempt.  The executing loop lives in
the external google.api_core library, not in this repository. -/
def backoff_delay (cfg : RetryConfig) (attempt : Nat) : ℚ :=
  min cfg.maximum (cfg.initial * cfg.multiplier ^ attempt)

/-- Outcome of one call to the external reasoning capability, as observed by
the caller: the call raised (including retry-budget exhaustion), returned a
response without a usable text payload, or returned a text body. -/
inductive ServiceOutcome where
  | raised
  | noText
  | text (body : String)

/-- External capability boundary: self.model.generate_content with the retry
request option.  The environment chooses the outcome; the config argument
records the request_options the source passes at the single call site. -/
def generate_content (request_retry : RetryConfig) (outcome : ServiceOutcome) :
    ServiceOutcome :=
  outcome

/-- One input student record, projected to the five required fields the
pipeline reads; a missing field models a JSON object lacking that key. -/
structure RawRecord where
  name : Option String
  grade : Option String
  subject : Option String
  remark : Option String
  exam_date : Option String

/-- The four record fields interpolated into the natural-language brief, in
the order _build_prompt reads them. -/
structure RawRecordPrompt where
  name : String
  grade : String
  subject : String
  remark : String

/-- The record-dependent payload of the AssessmentRequest brief built by
_build_prompt.  The surrounding constant template text (persona, objective,
output-shape instructions) is elided: no claim inspects it, and the data
dependency — the four fields interpolated, in this access order — is what
matters.  A missing field is a KeyError, i.e. an exception raised before the
service is ever called. -/
def build_prompt (r : RawRecord) : Except Unit RawRecordPrompt :=
  match r.name with
  | none => .error ()
  | some nm =>
    match r.grade with
    | none => .error ()
    | some gr =>
      match r.subject with
      | none => .error ()
      | some sb =>
        match r.remark with
        | none => .error ()
        | some rm => .ok ⟨nm, gr, sb, rm⟩

/-- The Fallback Assessment generator (sahayak_analytics.py lines 180-212),
literally transcribed.  The source passes the whole record dict but reads
only its name and grade keys, so those are the parameters here. -/
def create_enhanced_fallback_analysis (name grade : String) : JsonVal :=
  .obj [
    ("student_profile", .obj [
      ("current_grade_level", .str grade),
      ("functional_level", .str "Grade level assessment needed"),
      ("learning_pace", .str "Average"),
      ("attention_span", .str "Medium"),
      ("peer_interaction", .str "Neutral"),
      ("independence_level", .str "Medium")]),
    ("academic_performance", .obj [
      ("subject_mastery", .num 6),
      ("comprehension_level", .num 6),
      ("application_skills", .num 5),
      ("problem_solving", .num 6),
      ("retention_rate", .num 6)]),
    ("multi_grade_considerations", .obj [
      ("can_help_younger_students", .bool false),
      ("needs_advanced_challenges", .bool false),
      ("requires_individualized_attention", .bool true),
      ("works_well_in_mixed_groups", .bool true)]),
    ("detailed_strengths", .arr [.obj [
      ("strength", .str "Shows potential"),
      ("evidence", .str "Teacher observation"),
      ("classroom_application", .str "Can participate in group activities"),
      ("teaching_strategy", .str "Provide encouragement and support")]]),
    ("detailed_challenges", .arr [.obj [
      ("challenge", .str "Needs assessment"),
      ("root_cause", .str "Requires detailed evaluation"),
      ("severity", .str "Medium"),
      ("impact_on_multi_grade", .str "May need individualized attention"),
      ("immediate_intervention", .str "Closer observation needed")]]),
    ("sahayak_interventions", .arr [.obj [
      ("intervention", .str "Individual assessment"),
      ("specific_implementation", .str "One-on-one evaluation with specific activities"),
      ("daily_schedule", .str "During individual work time"),
      ("materials_needed", .str "Basic classroom materials"),
      ("zero_cost_adaptation", .str "Use existing materials"),
      ("expected_outcome", .str "Better understanding of needs")]]),
    ("personalized_summary", .obj [
      ("immediate_actions_for_tomorrow", .arr [
        .str ("Observe " ++ name ++ " more closely during lessons"),
        .str "Note specific areas of strength and challenge",
        .str "Plan targeted interventions based on observations"]),
      ("this_week_implementation", .arr [
        .str "Monday: Detailed observation",
        .str "Tuesday: Try different teaching approaches",
        .str "Wednesday: Note what works best",
        .str "Thursday: Implement successful strategies",
        .str "Friday: Assess progress"]),
      ("success_timeline_with_numbers", .str "Week 2: Better understanding of student needs. Week 4: Targeted interventions showing results. Week 6: Consistent improvement visible")])]

/-- Code-fence stripping applied to the raw response body before parsing
(lines 70-71): if the text starts with a json-tagged fence, remove every
fence marker and strip surrounding whitespace. -/
def clean_response (s : String) : String :=
  if s.startsWith "```json" then ((s.replace "```json" "").replace "```" "").trim
  else s

/-- The assessment operation (lines 50-84).  `json_loads` is the external
json.loads capability: some v when the cleaned text parses to the JSON value
v, none when parsing raises JSONDecodeError.  The returned list is the trace
of names for which the reasoning capability was actually invoked; the Except
models the exceptions that escape the function (only the KeyError from
building the prompt outside the try block — everything inside the try is
caught and replaced by the fallback). -/
def analyze_student_with_ai (json_loads : String → Option JsonVal)
    (r : RawRecord) (outcome : ServiceOutcome) :
    List String × Except Unit JsonVal :=
  match build_prompt r with
  | .error e => ([], .error e)
  | .ok p =>
    let result :=
      match generate_content analyze_retry outcome with
      | .raised => Except.ok (create_enhanced_fallback_analysis p.name p.grade)
      | .noText => Except.ok (create_enhanced_fallback_analysis p.name p.grade)
      | .text body =>
        match json_loads (clean_response body) with
        | some v => Except.ok v
        | none => Except.ok (create_enhanced_fallback_analysis p.name p.grade)
    ([p.name], result)

/-- Presence check for an optional top-level section: absent sections are
acceptable, present ones must pass the given shape check. -/
def section_ok (fs : List (String × JsonVal)) (k : String)
    (check : JsonVal → Bool) : Bool :=
  match jlookup fs k with
  | none => true
  | some v => check v

/-- Check that a field is present with a string value. -/
def str_field_ok (fs : List (String × JsonVal)) (k : String) : Bool :=
  match jlookup fs k with
  | some (.str _) => true
  | _ => false

/-- Check that a field is present with an integer-like score in [1,10]. -/
def score_ok (fs : List (String × JsonVal)) (k : String) : Bool :=
  match jlookup fs k with
  | some (.num q) => decide (1 ≤ q ∧ q ≤ 10)
  | _ => false

/-- Check that a field is present with a boolean value. -/
def bool_field_ok (fs : List (String × JsonVal)) (k : String) : Bool :=
  match jlookup fs k with
  | some (.bool _) => true
  | _ => false

/-- Check that a value is an array whose entries all pass a check. -/
def arr_ok (check : JsonVal → Bool) : JsonVal → Bool
  | .arr xs => xs.all check
  | _ => false

/-- Modelled from the spec (section 3, Assessment): the studentProfile
section is an object of string-valued fields. -/
def profile_section_ok : JsonVal → Bool
  | .obj fs => fs.all fun p => match p.2 with | .str _ => true | _ => false
  | _ => false

/-- Modelled from the spec: academicPerformance maps the five named metrics
to scores in [1,10]. -/
def perf_section_ok : JsonVal → Bool
  | .obj fs =>
      score_ok fs "subject_mastery" && score_ok fs "comprehension_level" &&
      score_ok fs "application_skills" && score_ok fs "problem_solving" &&
      score_ok fs "retention_rate"
  | _ => false

/-- Modelled from the spec: multiGradeConsiderations holds the four boolean
flags. -/
def mg_section_ok : JsonVal → Bool
  | .obj fs =>
      bool_field_ok fs "can_help_younger_students" &&
      bool_field_ok fs "needs_advanced_challenges" &&
      bool_field_ok fs "requires_individualized_attention" &&
      bool_field_ok fs "works_well_in_mixed_groups"
  | _ => false

/-- Modelled from the spec: a detailedStrengths entry is a record of the
four string fields. -/
def strength_entry_ok : JsonVal → Bool
  | .obj fs =>
      str_field_ok fs "strength" && str_field_ok fs "evidence" &&
      str_field_ok fs "classroom_application" && str_field_ok fs "teaching_strategy"
  | _ => false

/-- Modelled from the spec: a detailedChallenges entry has the five fields
with severity drawn from Low/Medium/High. -/
def challenge_entry_ok : JsonVal → Bool
  | .obj fs =>
      str_field_ok fs "challenge" && str_field_ok fs "root_cause" &&
      (match jlookup fs "severity" with
       | some (.str s) => s == "Low" || s == "Medium" || s == "High"
       | _ => false) &&
      str_field_ok fs "impact_on_multi_grade" && str_field_ok fs "immediate_intervention"
  | _ => false

/-- Modelled from the spec: a sahayakInterventions entry is a freeform
multi-field action-plan record, i.e. any object. -/
def intervention_entry_ok : JsonVal → Bool
  | .obj _ => true
  | _ => false

/-- Check that a value is an array of strings. -/
def str_list_ok : JsonVal → Bool
  | .arr xs => xs.all fun x => match x with | .str _ => true | _ => false
  | _ => false

/-- Modelled from the spec: personalizedSummary holds two string sequences
and a timeline string. -/
def summary_section_ok : JsonVal → Bool
  | .obj fs =>
      (match jlookup fs "immediate_actions_for_tomorrow" with
       | some v => str_list_ok v
       | none => false) &&
      (match jlookup fs "this_week_implementation" with
       | some v => str_list_ok v
       | none => false) &&
      str_field_ok fs "success_timeline_with_numbers"
  | _ => false

/-- Modelled from the spec (section 3): an Assessment is schema-valid when
it is an object whose top-level sections, where present, each conform to
their shape.  The source has no such validator — this definition follows the
words of the spec so that schema-validity claims can be stated against it. -/
def spec_valid_assessment : JsonVal → Bool
  | .obj fs =>
      section_ok fs "student_profile" profile_section_ok &&
      section_ok fs "academic_performance" perf_section_ok &&
      section_ok fs "multi_grade_considerations" mg_section_ok &&
      section_ok fs "detailed_strengths" (arr_ok strength_entry_ok) &&
      section_ok fs "detailed_challenges" (arr_ok challenge_entry_ok) &&
      section_ok fs "sahayak_interventions" (arr_ok intervention_entry_ok) &&
      section_ok fs "personalized_summary" summary_section_ok
  | _ => false

/-- One StudentReport as assembled in generate_complete_report
(lines 456-465): the record fields, a 1-based sequence position, an
analysis timestamp and the resolved Assessment. -/
structure Report where
  student_id : Nat
  student_name : String
  grade : String
  subject : String
  exam_date : String
  original_remark : String
  analysis_date : String
  analysis : JsonVal

/-- What one loop iteration of generate_complete_report does with a record:
raise (aborting the whole run via the outer except), silently skip the
record (falsy analysis fails the `if analysis:` guard), or produce a
report. -/
inductive StepResult where
  | crashed
  | skipped
  | produced (rep : Report)

/-- One iteration of the per-student loop (lines 451-467).  The name and
grade keys are read first by the progress print; the remaining keys are read
by _build_prompt and by the report literal.  Returns the trace of reasoning
calls made during the iteration together with the result of the iteration. -/
def process_one (json_loads : String → Option JsonVal) (date : String)
    (i : Nat) (r : RawRecord) (outcome : ServiceOutcome) :
    List String × StepResult :=
  match r.name, r.grade with
  | some nm, some gr =>
    match analyze_student_with_ai json_loads r outcome with
    | (tr, .error _) => (tr, .crashed)
    | (tr, .ok analysis) =>
      if truthy analysis then
        match r.subject, r.exam_date, r.remark with
        | some sb, some ed, some rm =>
            (tr, .produced ⟨i, nm, gr, sb, ed, rm, date, analysis⟩)
        | _, _, _ => (tr, .crashed)
      else (tr, .skipped)
  | _, _ => ([], .crashed)

/-- The sequential assessment loop of generate_complete_report, starting at
student_id i.  Each record is paired with the environment-chosen outcome of
its reasoning call; `dates` supplies the analysis_date drawn per iteration.
Returns the full trace of reasoning-service invocations and — unless some
iteration raised, which the outer except turns into an empty run — the
ordered report sequence. -/
def run_loop (json_loads : String → Option JsonVal) (dates : Nat → String) :
    Nat → List (RawRecord × ServiceOutcome) → List String × Option (List Report)
  | _, [] => ([], some [])
  | i, (r, outcome) :: rest =>
    match process_one json_loads (dates i) i r outcome with
    | (tr, .crashed) => (tr, none)
    | (tr, .skipped) =>
      let (tr', res) := run_loop json_loads dates (i + 1) rest
      (tr ++ tr', res)
    | (tr, .produced rep) =>
      let (tr', res) := run_loop json_loads dates (i + 1) rest
      (tr ++ tr', res.map (rep :: ·))

/-- A record is missing one of the four fields whose access raises before or
inside the assessment call (name and grade in the progress print, subject
and remark in _build_prompt). -/
def missing_prompt_field (r : RawRecord) : Prop :=
  r.name = none ∨ r.grade = none ∨ r.subject = none ∨ r.remark = none

/-- The built-in demo corpus (lines 39-45), used as concrete run input. -/
def demo_student_data : List RawRecord :=
  [⟨some "Arjun", some "Class 4", some "Mathematics",
    some "Arjun excels in basic arithmetic but struggles with word problems. Shows excellent focus during individual work but gets distracted in group settings. Needs support in reading comprehension for math problems.",
    some "2024-12-15"⟩,
   ⟨some "Priya", some "Class 5", some "English",
    some "Priya has strong vocabulary but struggles with sentence construction. She helps younger students during reading time, showing leadership qualities. Needs structured grammar practice and confidence building for writing.",
    some "2024-12-14"⟩,
   ⟨some "Rohan", some "Class 3", some "Science",
    some "Rohan asks insightful questions about nature and experiments but has difficulty following multi-step instructions. Very curious but needs help organizing his thoughts and answers. Great potential for hands-on learning.",
    some "2024-12-13"⟩,
   ⟨some "Kavya", some "Class 5", some "Mathematics",
    some "Kavya is advanced in calculations and often helps classmates. However, she rushes through problems and makes careless errors. Shows impatience when others are slower to understand concepts.",
    some "2024-12-12"⟩,
   ⟨some "Aman", some "Class 4", some "Hindi",
    some "Aman has difficulty with reading fluency but loves storytelling in his local dialect. Struggles with formal Hindi writing but shows creativity in oral expression. Needs bridge between his native language and formal Hindi.",
    some "2024-12-11"⟩]

/-- Mean of a list of scores, as np.mean over the academic_performance
values (exact rational arithmetic). -/
def list_mean (qs : List ℚ) : ℚ := qs.sum / qs.length

/-- The three performance bands of the class aggregation. -/
inductive Band where
  | high
  | urgent
  | mid
deriving DecidableEq

/-- The performance categorization of generate_class_strategic_insights
(lines 730-734): mean at least 7.5 is the high band, mean below 5.5 the
urgent band, anything else the (implicit) mid band. -/
def performance_band (qs : List ℚ) : Band :=
  if 7.5 ≤ list_mean qs then .high
  else if list_mean qs < 5.5 then .urgent
  else .mid

/-- The academic_performance score list of an analysis: the values of the
section object in insertion order, numerically read.  none when the
section is absent or its values are not numeric. -/
def analysis_scores (a : JsonVal) : Option (List ℚ) :=
  match objGet a "academic_performance" with
  | some (.obj fs) => (fs.map Prod.snd).mapM asNum
  | _ => none

/-- A multi_grade_considerations flag as read by the aggregation loop:
mg.get(key, False) filtered through Python truthiness; false when the
section is absent. -/
def mg_flag (a : JsonVal) (k : String) : Bool :=
  match objGet a "multi_grade_considerations" with
  | some (.obj fs) => truthy ((jlookup fs k).getD (.bool false))
  | _ => false

/-- The attention_span value recorded for a report when its analysis has a
student_profile section, defaulting to the string Medium. -/
def attention_of (a : JsonVal) : Option JsonVal :=
  match objGet a "student_profile" with
  | some (.obj fs) => some ((jlookup fs "attention_span").getD (.str "Medium"))
  | _ => none

/-- One entry of the subject_specific_issues buckets (lines 758-762). -/
structure SubjectIssue where
  student : String
  issue : JsonVal
  severity : JsonVal

/-- The severity filter of the urgent-subject callouts: the severity value
equals the string High (Python == on the JSON value). -/
def issue_is_high (i : SubjectIssue) : Bool :=
  match i.severity with
  | .str s => s == "High"
  | _ => false

/-- Insertion-ordered dict update as performed by the aggregation loops: a
new key is appended at the end, an existing key has the value appended to
its list.  The key comparison is passed in (string keys for grades and
subjects, JSON values for attention spans). -/
def addToBucketBy {κ α : Type} (eq : κ → κ → Bool)
    (d : List (κ × List α)) (k : κ) (v : α) : List (κ × List α) :=
  match d with
  | [] => [(k, [v])]
  | (k', vs) :: rest =>
    if eq k' k then (k', vs ++ [v]) :: rest
    else (k', vs) :: addToBucketBy eq rest k v

/-- Key lookup in an insertion-ordered bucket dict. -/
def lookupBucketBy {κ α : Type} (eq : κ → κ → Bool)
    (d : List (κ × List α)) (k : κ) : Option (List α) :=
  match d with
  | [] => none
  | (k', vs) :: rest => if eq k' k then some vs else lookupBucketBy eq rest k

/-- Names of students whose mean academic score reaches 7.5 (line 731), in
input order.  Reports without the section, or with an empty score dict
(whose np.mean is NaN, satisfying neither comparison), land in no band
list. -/
def high_performers (reports : List Report) : List String :=
  reports.filterMap fun r =>
    match analysis_scores r.analysis with
    | some (q :: qs) =>
      if performance_band (q :: qs) = .high then some r.student_name else none
    | _ => none

/-- Names of students whose mean academic score is below 5.5 (line 733). -/
def need_urgent_support (reports : List Report) : List String :=
  reports.filterMap fun r =>
    match analysis_scores r.analysis with
    | some (q :: qs) =>
      if performance_band (q :: qs) = .urgent then some r.student_name else none
    | _ => none

/-- Names of students flagged can_help_younger_students (lines 738-740). -/
def peer_helpers (reports : List Report) : List String :=
  reports.filterMap fun r =>
    if mg_flag r.analysis "can_help_younger_students" then some r.student_name else none

/-- Names of students flagged requires_individualized_attention
(lines 741-742). -/
def individual_attention_students (reports : List Report) : List String :=
  reports.filterMap fun r =>
    if mg_flag r.analysis "requires_individualized_attention" then some r.student_name
    else none

/-- The grade → names grouping (lines 720-723). -/
def grade_distribution (reports : List Report) : List (String × List String) :=
  reports.foldl (fun d r => addToBucketBy (· == ·) d r.grade r.student_name) []

/-- The attention_span → names grouping (lines 745-749). -/
def attention_span_data (reports : List Report) : List (JsonVal × List String) :=
  reports.foldl
    (fun d r =>
      match attention_of r.analysis with
      | some att => addToBucketBy JsonVal.beq d att r.student_name
      | none => d)
    []

/-- The subject → challenge-issue grouping (lines 752-762). -/
def subject_specific_issues (reports : List Report) : List (String × List SubjectIssue) :=
  reports.foldl
    (fun d r =>
      match objGet r.analysis "detailed_challenges" with
      | some (.arr cs) =>
        cs.foldl
          (fun d' c =>
            match c with
            | .obj fs =>
              addToBucketBy (· == ·) d' r.subject
                ⟨r.student_name, (jlookup fs "challenge").getD (.str "Unknown issue"),
                 (jlookup fs "severity").getD (.str "Medium")⟩
            | _ => d')
          d
      | _ => d)
    []

/-- A JSON value usable as a Python dict key (lists and dicts are
unhashable and raise). -/
def hashable_key : JsonVal → Bool
  | .arr _ => false
  | .obj _ => false
  | _ => true

/-- Whether one analysis passes through the aggregation loop without
raising: every dynamic access the loop performs (key tests on the analysis,
.values()/np.mean on the score dict, .get on the consideration and profile
dicts, iteration and .get over the challenge entries, dict insertion keyed
by the attention value) succeeds.  An analysis failing this aborts the whole
report generation, which the outer handler turns into an empty run. -/
def analysis_ok (a : JsonVal) : Bool :=
  match a with
  | .obj fs =>
    (match jlookup fs "academic_performance" with
     | none => true
     | some (.obj ps) => ps.all fun p => (asNum p.2).isSome
     | some _ => false) &&
    (match jlookup fs "multi_grade_considerations" with
     | none => true
     | some (.obj _) => true
     | some _ => false) &&
    (match jlookup fs "student_profile" with
     | none => true
     | some (.obj ps) => hashable_key ((jlookup ps "attention_span").getD (.str "Medium"))
     | some _ => false) &&
    (match jlookup fs "detailed_challenges" with
     | none => true
     | some (.arr cs) => cs.all fun c => match c with | .obj _ => true | _ => false
     | some _ => false)
  | _ => false

/-- The bullet prefix of every non-header insight line, exactly the bytes of
the source template (three spaces, the three characters U+201A U+00C4
U+00A2, one space). -/
def bullet : String := "   ‚Ä¢ "

/-- Python str.join with a comma separator, as used to interpolate name
lists into the directive templates. -/
def joinComma (xs : List String) : String := String.intercalate ", " xs

/-- The first directive category (lines 765-770): classroom setup header,
the class-size line and one line per grade group.  Always emitted. -/
def setup_block (total : Nat) (ias : List String)
    (gd : List (String × List String)) : List String :=
  ["<b>IMMEDIATE CLASSROOM SETUP (Implement Tomorrow):</b>",
   bullet ++ "TOTAL CLASS SIZE: " ++ toString total ++ " students requiring " ++
     toString ias.length ++ " individual support stations"] ++
  gd.map fun p =>
    bullet ++ p.1 ++ ": " ++ toString p.2.length ++ " students (" ++ joinComma p.2 ++
      ") - Seat together in rows 2-3"

/-- One peer-tutor pairing directive line (line 782). -/
def pair_line (helper learner : String) : String :=
  bullet ++ "PAIR: " ++ helper ++ " (tutor) + " ++ learner ++
    " (learner) - Meet Tuesdays & Thursdays 11:30-11:50 AM, back-left corner desk"

/-- The peer-tutoring category (lines 773-782), gated on both the helper and
the at-risk buckets being nonempty.  The pairing loop (enumerate over the
helpers, guarded by the index being in range of the at-risk list) pairs the
i-th helper with the i-th at-risk student, which is exactly List.zip. -/
def peer_block (helpers urgent : List String) : List String :=
  if !helpers.isEmpty && !urgent.isEmpty then
    ["<b>PEER TUTORING SYSTEM (Start This Week):</b>",
     bullet ++ "TUTORS AVAILABLE: " ++ joinComma helpers ++ " can help struggling classmates",
     bullet ++ "STUDENTS NEEDING HELP: " ++ joinComma urgent ++ " require daily support"] ++
    (helpers.zip urgent).map fun p => pair_line p.1 p.2
  else []

/-- The daily-schedule category (lines 785-790): the header is emitted
unconditionally, the support-time lines only when the individual-attention
bucket is nonempty (a second line once it exceeds three names). -/
def schedule_block (ias : List String) : List String :=
  ["<b>DAILY SCHEDULE OPTIMIZATION (Exact Times):</b>"] ++
  (if !ias.isEmpty then
    [bullet ++ "10:15-10:30 AM: Individual support time for " ++ joinComma (ias.take 3) ++
      " while others do independent work"] ++
    (if 3 < ias.length then
      [bullet ++ "2:45-3:00 PM: Individual support time for " ++ joinComma (ias.drop 3) ++
        " while others clean classroom"]
     else [])
   else [])

/-- The subject-urgent category (lines 793-800): per subject, emitted only
when some challenge entry for that subject has severity High. -/
def urgent_subject_block (ssi : List (String × List SubjectIssue)) : List String :=
  ssi.flatMap fun p =>
    let hs := (p.2.filter issue_is_high).map (·.student)
    if hs.isEmpty then []
    else
      ["<b>URGENT " ++ p.1.toUpper ++ " INTERVENTIONS:</b>",
       bullet ++ "STUDENTS NEEDING IMMEDIATE HELP: " ++ joinComma hs,
       bullet ++ "ACTION: Dedicate first 15 minutes of " ++ p.1 ++
         " class to small group instruction with these students",
       bullet ++ "LOCATION: Front corner of classroom, use visual aids and manipulatives"]

/-- The attention-span category (lines 803-808): emitted only when the
attention data is nonempty and has a Short bucket. -/
def attention_block (asd : List (JsonVal × List String)) : List String :=
  if asd.isEmpty then []
  else
    match lookupBucketBy JsonVal.beq asd (.str "Short") with
    | none => []
    | some shorts =>
      ["<b>ATTENTION SPAN MANAGEMENT:</b>",
       bullet ++ "SHORT ATTENTION (" ++ joinComma shorts ++
         "): Change activities every 8-10 minutes, use movement breaks",
       bullet ++ "STRATEGY: Ring bell every 8 minutes, have these students stand and stretch for 30 seconds"]

/-- The classroom-layout category (lines 811-815): emitted unconditionally,
interpolating up to four individual-attention names (an empty bucket yields
an empty parenthesis). -/
def layout_block (ias : List String) : List String :=
  ["<b>CLASSROOM LAYOUT (Rearrange This Week):</b>",
   bullet ++ "FRONT ROW: Individual attention students (" ++ joinComma (ias.take 4) ++ ")",
   bullet ++ "MIDDLE ROWS: Grade-level groups - Class 3 left side, Class 4 center, Class 5 right side",
   bullet ++ "BACK LEFT CORNER: Peer tutoring station with small desk and manipulation materials",
   bullet ++ "BACK RIGHT CORNER: Independent work station for advanced students"]

/-- The progress-tracking category (lines 818-821): emitted unconditionally,
substituting generic placeholders when the at-risk or helper buckets are
empty. -/
def progress_block (urgent helpers : List String) : List String :=
  ["<b>PROGRESS TRACKING SYSTEM (Start Monday):</b>",
   bullet ++ "MONDAY: Quick assessment - check weekend practice with " ++
     (if !urgent.isEmpty then joinComma urgent else "all students"),
   bullet ++ "WEDNESDAY: Peer tutor feedback - ask " ++
     (if !helpers.isEmpty then joinComma helpers else "advanced students") ++
     " \x27How is your buddy doing?\x27",
   bullet ++ "FRIDAY: Weekly goals check - use simple ‚úì/X marking for each student\x27s target skills"]

/-- The zero-cost materials category (lines 824-828): constant, always
emitted. -/
def materials_block : List String :=
  ["<b>MATERIALS NEEDED (Zero Cost):</b>",
   bullet ++ "20 small stones for counting (collect from playground)",
   bullet ++ "3 cloth pieces for manipulation activities (use old saris/clothes)",
   bullet ++ "2 small containers for storing materials (use empty containers)",
   bullet ++ "1 progress tracking sheet per student (draw grid on paper)"]

/-- generate_class_strategic_insights (lines 698-830): the bucket pass over
the reports followed by the template blocks in source order.  none models
the aggregation raising on a malformed analysis, which aborts the run. -/
def generate_class_strategic_insights (reports : List Report) :
    Option (List String) :=
  if reports.all (fun r => analysis_ok r.analysis) then
    some (setup_block reports.length (individual_attention_students reports)
            (grade_distribution reports) ++
          peer_block (peer_helpers reports) (need_urgent_support reports) ++
          schedule_block (individual_attention_students reports) ++
          urgent_subject_block (subject_specific_issues reports) ++
          attention_block (attention_span_data reports) ++
          layout_block (individual_attention_students reports) ++
          progress_block (need_urgent_support reports) (peer_helpers reports) ++
          materials_block)
  else none

/-- Recognizer for the pairing directive lines among the synthesized
insights. -/
def is_pair_line (s : String) : Bool := s.startsWith (bullet ++ "PAIR: ")

/-- Filename of one per-student chart image (lines 312): no timestamp, only
the student id and the space-mangled name. -/
def student_viz_filename (temp_dir : String) (student_id : Nat) (name : String) :
    String :=
  temp_dir ++ "/sahayak_student_" ++ toString student_id ++ "_" ++
    (name.replace " " "_") ++ ".png"

/-- Filename of the class dashboard image (line 438): a fixed name with no
timestamp. -/
def class_dashboard_filename (temp_dir : String) : String :=
  temp_dir ++ "/sahayak_class_analytics.png"

/-- Filename of the archival data file (lines 496-497), suffixed with the
timestamp drawn at that point of the run. -/
def json_data_filename (temp_dir timestamp : String) : String :=
  temp_dir ++ "/sahayak_analysis_data_" ++ timestamp ++ ".json"

/-- Filename of the composed PDF document (lines 523-524), suffixed with a
timestamp drawn independently inside the PDF generator. -/
def pdf_report_filename (temp_dir timestamp : String) : String :=
  temp_dir ++ "/SAHAYAK_Complete_Report_" ++ timestamp ++ ".pdf"

/-- The file list a successful run returns (line 514): the PDF, the class
dashboard, the archival data file, then the per-student charts.  The PDF and
the archival file each receive their own datetime.now() timestamp. -/
def generated_files (temp_dir ts_pdf ts_json : String) (reports : List Report) :
    List String :=
  pdf_report_filename temp_dir ts_pdf ::
  class_dashboard_filename temp_dir ::
  json_data_filename temp_dir ts_json ::
  reports.map fun r => student_viz_filename temp_dir r.student_id r.student_name

/-- Whether a string ends with the given tail. -/
def ends_with (tail s : String) : Bool :=
  decide (s.data.drop (s.data.length - tail.data.length) = tail.data)

/-- Whether a filename carries the given run timestamp as a suffix before
its extension. -/
def has_ts_suffix (ts f : String) : Bool :=
  ends_with ("_" ++ ts ++ ".pdf") f || ends_with ("_" ++ ts ++ ".json") f ||
  ends_with ("_" ++ ts ++ ".png") f

/-- JSON encoding of one report as written by json.dump: the dict literal of
lines 456-465 in its insertion order. -/
def report_to_json (r : Report) : JsonVal :=
  .obj [("student_id", .num r.student_id),
        ("student_name", .str r.student_name),
        ("grade", .str r.grade),
        ("subject", .str r.subject),
        ("exam_date", .str r.exam_date),
        ("original_remark", .str r.original_remark),
        ("analysis_date", .str r.analysis_date),
        ("analysis", r.analysis)]

/-- The archival structured-data value written by generate_complete_report
(lines 500-509): run metadata plus the full report sequence. -/
def archival_json (meta_date : String) (reports : List Report) : JsonVal :=
  .obj [("metadata", .obj [
          ("system", .str "SAHAYAK - AI Teaching Assistant"),
          ("version", .str "1.0 - Multi-Grade Classroom Analytics"),
          ("total_students", .num reports.length),
          ("analysis_date", .str meta_date),
          ("designed_for", .str "Under-resourced multi-grade classrooms in India")]),
        ("students", .arr (reports.map report_to_json))]

/-- Decoding of one report from its archival JSON object (the re-parsing
side of the round-trip property). -/
def report_of_json (v : JsonVal) : Option Report :=
  match v with
  | .obj fs =>
    match jlookup fs "student_id", jlookup fs "student_name", jlookup fs "grade",
          jlookup fs "subject", jlookup fs "exam_date",
          jlookup fs "original_remark", jlookup fs "analysis_date",
          jlookup fs "analysis" with
    | some (.num q), some (.str nm), some (.str gr), some (.str sb),
      some (.str ed), some (.str rm), some (.str ad), some an =>
        some ⟨q.num.toNat, nm, gr, sb, ed, rm, ad, an⟩
    | _, _, _, _, _, _, _, _ => none
  | _ => none

/-- Decoding of a report sequence, element by element; any failing element
fails the whole decode. -/
def decode_students : List JsonVal → Option (List Report)
  | [] => some []
  | v :: vs =>
    match report_of_json v, decode_students vs with
    | some r, some rs => some (r :: rs)
    | _, _ => none

/-- Re-parsing the report sequence out of the archival data value. -/
def parse_students (v : JsonVal) : Option (List Report) :=
  match objGet v "students" with
  | some (.arr xs) => decode_students xs
  | _ => none

/-- The total_students entry of the archival metadata. -/
def metadata_total (v : JsonVal) : Option JsonVal :=
  match objGet v "metadata" with
  | some (.obj ms) => jlookup ms "total_students"
  | _ => none

/-- One named metric of the academic_performance section of an Assessment. -/
def perf_score (a : JsonVal) (k : String) : Option JsonVal :=
  match objGet a "academic_performance" with
  | some (.obj fs) => jlookup fs k
  | _ => none

/-- One field of the student_profile section of an Assessment. -/
def profile_field (a : JsonVal) (k : String) : Option JsonVal :=
  match objGet a "student_profile" with
  | some (.obj fs) => jlookup fs k
  | _ => none

/-- Length of an array-valued Assessment section. -/
def section_length (a : JsonVal) (k : String) : Option Nat :=
  match objGet a k with
  | some (.arr xs) => some xs.length
  | _ => none

/-- An analysis marking a peer helper with uniformly high scores, used to
instantiate the pairing scenario. -/
def can_help_analysis : JsonVal :=
  .obj [("academic_performance", .obj [
          ("subject_mastery", .num 8), ("comprehension_level", .num 8),
          ("application_skills", .num 8), ("problem_solving", .num 8),
          ("retention_rate", .num 8)]),
        ("multi_grade_considerations", .obj [
          ("can_help_younger_students", .bool true)])]

/-- An analysis with uniformly low scores (mean 3, urgent band). -/
def low_score_analysis : JsonVal :=
  .obj [("academic_performance", .obj [
          ("subject_mastery", .num 3), ("comprehension_level", .num 3),
          ("application_skills", .num 3), ("problem_solving", .num 3),
          ("retention_rate", .num 3)])]

/-- The pairing test corpus: peer helpers A and B, at-risk students X, Y and
Z, in input order. -/
def pairing_demo_reports : List Report :=
  [⟨1, "A", "Class 5", "Mathematics", "2024-12-15", "obs", "t", can_help_analysis⟩,
   ⟨2, "B", "Class 5", "Mathematics", "2024-12-15", "obs", "t", can_help_analysis⟩,
   ⟨3, "X", "Class 4", "Mathematics", "2024-12-15", "obs", "t", low_score_analysis⟩,
   ⟨4, "Y", "Class 4", "Mathematics", "2024-12-15", "obs", "t", low_score_analysis⟩,
   ⟨5, "Z", "Class 4", "Mathematics", "2024-12-15", "obs", "t", low_score_analysis⟩]

/-- A report whose analysis is an empty object: every optional section is
absent, so every aggregation bucket it could feed stays empty. -/
def empty_analysis_report : Report :=
  ⟨1, "Lone", "Class 4", "Mathematics", "2024-12-15", "obs", "t", .obj []⟩

/-- A report carrying the Fallback Assessment. -/
def fallback_demo_report : Report :=
  ⟨1, "Asha", "Class 4", "Mathematics", "2024-12-15", "obs", "t",
   create_enhanced_fallback_analysis "Asha" "Class 4"⟩

/-- A record missing its subject field. -/
def bad_subject_record : RawRecord :=
  ⟨some "Bina", some "Class 5", none, some "obs", some "2024-12-14"⟩

/-- A batch whose first record is complete and whose second record is
missing a required field. -/
def mixed_batch : List (RawRecord × ServiceOutcome) :=
  [(⟨some "Arjun", some "Class 4", some "Mathematics", some "obs", some "2024-12-15"⟩,
    ServiceOutcome.raised),
   (bad_subject_record, ServiceOutcome.raised)]

/-- C2 counterexample: the Fallback Assessment does not assign 6 to every
metric — application_skills is 5. -/
theorem c2_metric_counterexample :
    perf_score (create_enhanced_fallback_analysis "Asha" "Class 4")
      "application_skills" = some (JsonVal.num 5) ∧
    perf_score (create_enhanced_fallback_analysis "Asha" "Class 4")
      "application_skills" ≠ some (JsonVal.num 6) := by
  refine ⟨rfl, fun h => ?_⟩
  rw [show perf_score (create_enhanced_fallback_analysis "Asha" "Class 4")
        "application_skills" = some (JsonVal.num 5) from rfl] at h
  injection h with h1
  injection h1 with h2
  exact absurd h2 (by norm_num)

/-- C2 (amended): the Fallback Assessment is a pure function of name and
grade producing a complete, schema-valid Assessment with Average/Medium
qualitative labels and exactly one strength, challenge and intervention
entry; its five metric scores are 6, 6, 5, 6 and 6 — four metrics at the
neutral 6, but application_skills at 5. -/
theorem c2_fallback_structure_amended (name grade : String) :
    spec_valid_assessment (create_enhanced_fallback_analysis name grade) = true ∧
    perf_score (create_enhanced_fallback_analysis name grade) "subject_mastery"
      = some (JsonVal.num 6) ∧
    perf_score (create_enhanced_fallback_analysis name grade) "comprehension_level"
      = some (JsonVal.num 6) ∧
    perf_score (create_enhanced_fallback_analysis name grade) "application_skills"
      = some (JsonVal.num 5) ∧
    perf_score (create_enhanced_fallback_analysis name grade) "problem_solving"
      = some (JsonVal.num 6) ∧
    perf_score (create_enhanced_fallback_analysis name grade) "retention_rate"
      = some (JsonVal.num 6) ∧
    profile_field (create_enhanced_fallback_analysis name grade) "learning_pace"
      = some (JsonVal.str "Average") ∧
    profile_field (create_enhanced_fallback_analysis name grade) "attention_span"
      = some (JsonVal.str "Medium") ∧
    profile_field (create_enhanced_fallback_analysis name grade) "peer_interaction"
      = some (JsonVal.str "Neutral") ∧
    profile_field (create_enhanced_fallback_analysis name grade) "independence_level"
      = some (JsonVal.str "Medium") ∧
    profile_field (create_enhanced_fallback_analysis name grade) "current_grade_level"
      = some (JsonVal.str grade) ∧
    section_length (create_enhanced_fallback_analysis name grade) "detailed_strengths"
      = some 1 ∧
    section_length (create_enhanced_fallback_analysis name grade) "detailed_challenges"
      = some 1 ∧
    section_length (create_enhanced_fallback_analysis name grade) "sahayak_interventions"
      = some 1 :=
  ⟨rfl, rfl, rfl, rfl, rfl, rfl, rfl, rfl, rfl, rfl, rfl, rfl, rfl, rfl⟩

/-- C4: the performance band of a five-score Assessment is a pure function
of the score mean with thresholds 7.5 and 5.5: mean at least 7.5 is high,
mean below 5.5 is urgent, otherwise mid; in particular a mean of exactly
7.5 is high and a mean of exactly 5.5 is mid, not urgent. -/
theorem c4_performance_band_thresholds (scores : List ℚ)
    (h5 : scores.length = 5) :
    (performance_band scores = Band.high ↔ 7.5 ≤ list_mean scores) ∧
    (performance_band scores = Band.urgent ↔ list_mean scores < 5.5) ∧
    (performance_band scores = Band.mid ↔
      5.5 ≤ list_mean scores ∧ list_mean scores < 7.5) ∧
    (list_mean scores = 7.5 → performance_band scores = Band.high) ∧
    (list_mean scores = 5.5 → performance_band scores = Band.mid) := by
  rcases le_or_lt 7.5 (list_mean scores) with h1 | h1
  · have hband : performance_band scores = Band.high := by
      unfold performance_band; rw [if_pos h1]
    refine ⟨?_, ?_, ?_, fun _ => hband, fun h => ?_⟩
    · simp [hband, h1]
    · simp only [hband, reduceCtorEq, false_iff, not_lt]; linarith
    · simp only [hband, reduceCtorEq, false_iff, not_and, not_lt]
      intro _; exact h1
    · linarith
  · rcases lt_or_le (list_mean scores) 5.5 with h2 | h2
    · have hband : performance_band scores = Band.urgent := by
        unfold performance_band; rw [if_neg (by linarith), if_pos h2]
      refine ⟨?_, ?_, ?_, fun h => ?_, fun h => ?_⟩
      · simp only [hband, reduceCtorEq, false_iff, not_le]; linarith
      · simp [hband, h2]
      · simp only [hband, reduceCtorEq, false_iff, not_and, not_lt]
        intro h3; linarith
      · linarith
      · linarith
    · have hband : performance_band scores = Band.mid := by
        unfold performance_band; rw [if_neg (by linarith), if_neg (by linarith)]
      refine ⟨?_, ?_, ?_, fun h => ?_, fun _ => hband⟩
      · simp only [hband, reduceCtorEq, false_iff, not_le]; linarith
      · simp only [hband, reduceCtorEq, false_iff, not_lt]; linarith
      · simp only [hband, true_iff]; exact ⟨h2, h1⟩
      · linarith

/-- C4 witness: concrete boundary inputs — five scores of 7.5 give mean
exactly 7.5 and land in the high band; five scores of 5.5 give mean exactly
5.5 and land in the mid band. -/
theorem c4_performance_band_witness :
    performance_band [(7.5 : ℚ), 7.5, 7.5, 7.5, 7.5] = Band.high ∧
    performance_band [(5.5 : ℚ), 5.5, 5.5, 5.5, 5.5] = Band.mid :=
  ⟨(c4_performance_band_thresholds [(7.5 : ℚ), 7.5, 7.5, 7.5, 7.5] rfl).2.2.2.1
     (by with_unfolding_all decide),
   (c4_performance_band_thresholds [(5.5 : ℚ), 5.5, 5.5, 5.5, 5.5] rfl).2.2.2.2
     (by with_unfolding_all decide)⟩

/-- C7: the single reasoning-capability call site configures its bounded
retry with initial delay 1, per-attempt cap 60, multiplier 2, overall
deadline 120, and a predicate accepting exactly the transient error
classifications, giving the capped exponential backoff schedule. -/
theorem c7_retry_configuration :
    analyze_retry.initial = 1 ∧ analyze_retry.maximum = 60 ∧
    analyze_retry.multiplier = 2 ∧ analyze_retry.deadline = 120 ∧
    (∀ e, analyze_retry.predicate e = true ↔ e = ErrorClass.transient) ∧
    (∀ n, backoff_delay analyze_retry n = min 60 (2 ^ n)) := by
  refine ⟨rfl, rfl, rfl, rfl, fun e => ?_, fun n => ?_⟩
  · cases e <;> simp [analyze_retry, if_transient_error]
  · simp [backoff_delay, analyze_retry]

/-- C1 counterexample: the requester performs no shape validation — a
response whose text parses as JSON is returned as-is.  Here the service
returns the text 5, json.loads yields the number 5, and the operation
returns that number: not schema-valid and not the Fallback Assessment. -/
theorem c1_shape_invalid_counterexample :
    (analyze_student_with_ai (fun s => if s = "5" then some (JsonVal.num 5) else none)
       ⟨some "Asha", some "Class 4", some "Mathematics", some "obs", some "2024-12-15"⟩
       (.text "5")).2 = Except.ok (JsonVal.num 5) ∧
    spec_valid_assessment (JsonVal.num 5) = false ∧
    JsonVal.num 5 ≠ create_enhanced_fallback_analysis "Asha" "Class 4" :=
  ⟨rfl, rfl, fun h => JsonVal.noConfusion h⟩

/-- C1 (amended): for a record with all five required fields present, the
assessment operation never raises, and whenever the reasoning capability
raises, times out, returns no usable text, or returns unparseable text, the
result is entirely the Fallback Assessment, which is schema-valid; but text
that parses as JSON is returned as-is with no shape validation. -/
theorem c1_assess_fallback_amended (json_loads : String → Option JsonVal)
    (n g sb rm ed : String) (outcome : ServiceOutcome) :
    (∃ v, (analyze_student_with_ai json_loads
        ⟨some n, some g, some sb, some rm, some ed⟩ outcome).2 = Except.ok v) ∧
    (analyze_student_with_ai json_loads
        ⟨some n, some g, some sb, some rm, some ed⟩ .raised).2
      = Except.ok (create_enhanced_fallback_analysis n g) ∧
    (analyze_student_with_ai json_loads
        ⟨some n, some g, some sb, some rm, some ed⟩ .noText).2
      = Except.ok (create_enhanced_fallback_analysis n g) ∧
    (∀ body, json_loads (clean_response body) = none →
       (analyze_student_with_ai json_loads
           ⟨some n, some g, some sb, some rm, some ed⟩ (.text body)).2
         = Except.ok (create_enhanced_fallback_analysis n g)) ∧
    (∀ body v, json_loads (clean_response body) = some v →
       (analyze_student_with_ai json_loads
           ⟨some n, some g, some sb, some rm, some ed⟩ (.text body)).2
         = Except.ok v) ∧
    spec_valid_assessment (create_enhanced_fallback_analysis n g) = true := by
  refine ⟨?_, rfl, rfl, fun body h => ?_, fun body v h => ?_, rfl⟩
  · cases outcome with
    | raised => exact ⟨_, rfl⟩
    | noText => exact ⟨_, rfl⟩
    | text body =>
      cases hb : json_loads (clean_response body) with
      | none =>
        refine ⟨create_enhanced_fallback_analysis n g, ?_⟩
        simp only [analyze_student_with_ai, build_prompt, generate_content, hb]
      | some v =>
        refine ⟨v, ?_⟩
        simp only [analyze_student_with_ai, build_prompt, generate_content, hb]
  · simp only [analyze_student_with_ai, build_prompt, generate_content, h]
  · simp only [analyze_student_with_ai, build_prompt, generate_content, h]

/-- C1 witness: a concrete record, a service returning unparseable text, and
a parse capability that rejects it — the result is exactly the Fallback
Assessment. -/
theorem c1_assess_fallback_witness :
    (analyze_student_with_ai (fun _ => none)
       ⟨some "Asha", some "Class 4", some "Mathematics", some "obs", some "2024-12-15"⟩
       (.text "not json")).2
      = Except.ok (create_enhanced_fallback_analysis "Asha" "Class 4") :=
  (c1_assess_fallback_amended (fun _ => none) "Asha" "Class 4" "Mathematics" "obs"
    "2024-12-15" (.text "not json")).2.2.2.1 "not json" rfl

/-- A record missing one of the four prompt-path fields makes its loop
iteration raise. -/
theorem process_one_crashed_of_missing (json_loads : String → Option JsonVal)
    (date : String) (i : Nat) (r : RawRecord) (outcome : ServiceOutcome)
    (h : missing_prompt_field r) :
    (process_one json_loads date i r outcome).2 = StepResult.crashed := by
  obtain ⟨nm, gr, sb, rm, ed⟩ := r
  unfold missing_prompt_field at h
  rcases h with h | h | h | h <;> simp only at h <;> subst h
  · cases gr <;> rfl
  · cases nm <;> rfl
  · cases nm <;> cases gr <;> rfl
  · cases nm <;> cases gr <;> cases sb <;> rfl

/-- C3 counterexample: a batch whose second record is missing its subject
field is not rejected before any assessment call — the first record is fully
assessed (its reasoning call appears in the trace) before the loop raises at
the malformed record and the run collapses to the empty result. -/
theorem c3_prior_assessment_counterexample :
    (run_loop (fun _ => none) (fun _ => "2024-12-15T10:00:00") 1 mixed_batch).2
      = none ∧
    (run_loop (fun _ => none) (fun _ => "2024-12-15T10:00:00") 1 mixed_batch).1
      = ["Arjun"] ∧
    ["Arjun"] ≠ ([] : List String) := by
  refine ⟨rfl, rfl, by simp⟩

/-- C3 (amended): a batch containing a record that lacks one of the four
fields read on the prompt path (name, grade, subject, remark) always makes
the run fail as a whole — no report sequence is produced, so no artifacts
are emitted — but the failure happens when the malformed record is reached
in the sequential loop, not before the earlier records are assessed. -/
theorem c3_batch_hard_failure_amended (json_loads : String → Option JsonVal)
    (dates : Nat → String) (i : Nat)
    (batch : List (RawRecord × ServiceOutcome))
    (h : ∃ e ∈ batch, missing_prompt_field e.1) :
    (run_loop json_loads dates i batch).2 = none := by
  induction batch generalizing i with
  | nil =>
    rcases h with ⟨e, he, _⟩
    exact absurd he (List.not_mem_nil e)
  | cons hd tl ih =>
    rcases h with ⟨e, he, hmiss⟩
    rcases hp : process_one json_loads (dates i) i hd.1 hd.2 with ⟨tr, sr⟩
    rcases List.mem_cons.mp he with rfl | hmem
    · have hc := process_one_crashed_of_missing json_loads (dates i) i e.1 e.2 hmiss
      rw [hp] at hc
      simp only at hc
      subst hc
      simp [run_loop, hp]
    · have htl := ih (i + 1) ⟨e, hmem, hmiss⟩
      rcases hrl : run_loop json_loads dates (i + 1) tl with ⟨tr', res⟩
      rw [hrl] at htl
      simp only at htl
      subst htl
      cases sr <;> simp [run_loop, hp, hrl]

/-- C3 witness: a single-record batch missing its subject field produces no
report sequence. -/
theorem c3_batch_hard_failure_witness :
    (run_loop (fun _ => none) (fun _ => "2024-12-15T10:00:00") 1
       [(bad_subject_record, ServiceOutcome.raised)]).2 = none :=
  c3_batch_hard_failure_amended (fun _ => none) (fun _ => "2024-12-15T10:00:00") 1
    [(bad_subject_record, ServiceOutcome.raised)]
    ⟨(bad_subject_record, ServiceOutcome.raised), by simp,
     by unfold missing_prompt_field bad_subject_record; right; right; left; rfl⟩

/-- Indexing a zip is positional: the i-th pair combines the i-th elements
of the two lists, and exists only while both are in range. -/
theorem zip_index (hs us : List String) (i : Nat) :
    (hs.zip us)[i]? = hs[i]?.bind fun a => us[i]?.map fun b => (a, b) := by
  induction hs generalizing us i with
  | nil => simp
  | cons a hs ih =>
    cases us with
    | nil => simp
    | cons b us =>
      cases i with
      | zero => simp
      | succ i => simpa using ih us i

/-- C5: peer-tutor pairing is strictly positional — the pairing list is the
zip of the helper and at-risk lists, so exactly min(helpers, at-risk) pairs
are emitted, matched by index; on the concrete corpus with helpers A, B and
at-risk X, Y, Z the synthesized insights contain exactly the pairing lines
for (A, X) and (B, Y), and Z appears in no pairing line. -/
theorem c5_positional_pairing :
    (∀ (hs us : List String) (i : Nat),
       (hs.zip us)[i]? = hs[i]?.bind fun a => us[i]?.map fun b => (a, b)) ∧
    (∀ hs us : List String, (hs.zip us).length = min hs.length us.length) ∧
    (generate_class_strategic_insights pairing_demo_reports).isSome = true ∧
    ((generate_class_strategic_insights pairing_demo_reports).getD []).filter
        is_pair_line = [pair_line "A" "X", pair_line "B" "Y"] ∧
    (((generate_class_strategic_insights pairing_demo_reports).getD []).filter
        is_pair_line).all (fun s => !(s.data.contains 'Z')) = true := by
  refine ⟨zip_index, fun hs us => List.length_zip .., ?_, ?_, ?_⟩ <;>
    with_unfolding_all decide

/-- C6 counterexample: with a single student whose analysis has no sections,
every bucket is empty, yet the classroom-layout category is still emitted —
with an empty interpolated name list — and so is the progress-tracking
category; empty buckets do not suppress these categories. -/
theorem c6_layout_not_suppressed_counterexample :
    individual_attention_students [empty_analysis_report] = [] ∧
    need_urgent_support [empty_analysis_report] = [] ∧
    peer_helpers [empty_analysis_report] = [] ∧
    (generate_class_strategic_insights [empty_analysis_report]).isSome = true ∧
    "<b>CLASSROOM LAYOUT (Rearrange This Week):</b>" ∈
      (generate_class_strategic_insights [empty_analysis_report]).getD [] ∧
    (bullet ++ "FRONT ROW: Individual attention students ()") ∈
      (generate_class_strategic_insights [empty_analysis_report]).getD [] ∧
    "<b>PROGRESS TRACKING SYSTEM (Start Monday):</b>" ∈
      (generate_class_strategic_insights [empty_analysis_report]).getD [] := by
  with_unfolding_all decide

/-- C6 (amended): empty buckets suppress the peer-tutoring, attention-span
and subject-urgent categories entirely, but the classroom-layout and
progress-tracking categories are emitted unconditionally, interpolating an
empty name list or a generic placeholder when their buckets are empty. -/
theorem c6_bucket_suppression_amended :
    (∀ hs us : List String, hs = [] ∨ us = [] → peer_block hs us = []) ∧
    (∀ asd : List (JsonVal × List String),
       lookupBucketBy JsonVal.beq asd (JsonVal.str "Short") = none →
       attention_block asd = []) ∧
    (∀ ssi : List (String × List SubjectIssue),
       (∀ p ∈ ssi, p.2.filter issue_is_high = []) →
       urgent_subject_block ssi = []) ∧
    (∀ ias : List String,
       "<b>CLASSROOM LAYOUT (Rearrange This Week):</b>" ∈ layout_block ias) ∧
    (∀ urgent helpers : List String,
       "<b>PROGRESS TRACKING SYSTEM (Start Monday):</b>" ∈
         progress_block urgent helpers) := by
  refine ⟨?_, ?_, ?_, ?_, ?_⟩
  · rintro hs us (rfl | rfl) <;> simp [peer_block]
  · intro asd h
    rcases asd with _ | ⟨p, asd⟩
    · rfl
    · simp [attention_block, h]
  · intro ssi
    induction ssi with
    | nil => intro h; rfl
    | cons p ssi ih =>
      intro h
      have hp := h p (List.mem_cons_self p ssi)
      have hrest := ih fun q hq => h q (List.mem_cons_of_mem p hq)
      unfold urgent_subject_block at hrest ⊢
      simp only [List.flatMap_cons, hp]
      simpa using hrest
  · intro ias; simp [layout_block]
  · intro urgent helpers; simp [progress_block]

/-- C6 witness: concrete empty buckets — the peer, attention and
subject-urgent categories vanish, while the layout header is still
present. -/
theorem c6_bucket_suppression_witness :
    peer_block [] ["X"] = [] ∧
    attention_block [] = [] ∧
    urgent_subject_block [("Mathematics", [])] = [] ∧
    "<b>CLASSROOM LAYOUT (Rearrange This Week):</b>" ∈ layout_block [] :=
  ⟨c6_bucket_suppression_amended.1 [] ["X"] (Or.inl rfl),
   c6_bucket_suppression_amended.2.1 [] rfl,
   c6_bucket_suppression_amended.2.2.1 [("Mathematics", [])]
     (by intro p hp; simp only [List.mem_singleton] at hp; subst hp; rfl),
   c6_bucket_suppression_amended.2.2.2.1 []⟩

/-- The mean score 5.8 of the Fallback Assessment lands in the mid band. -/
theorem fallback_band_mid : performance_band [6, 6, 5, 6, 6] = Band.mid := by
  with_unfolding_all decide

/-- A report carrying a fallback analysis contributes nothing to the
high-performer bucket. -/
theorem high_performers_cons_fallback (r : Report) (rs : List Report)
    (n g : String) (hr : r.analysis = create_enhanced_fallback_analysis n g) :
    high_performers (r :: rs) = high_performers rs := by
  unfold high_performers
  rw [List.filterMap_cons]
  have hsc : analysis_scores r.analysis = some [6, 6, 5, 6, 6] := by rw [hr]; rfl
  simp only [hsc, fallback_band_mid]
  simp

/-- A report carrying a fallback analysis contributes nothing to the
urgent-support bucket. -/
theorem need_urgent_cons_fallback (r : Report) (rs : List Report)
    (n g : String) (hr : r.analysis = create_enhanced_fallback_analysis n g) :
    need_urgent_support (r :: rs) = need_urgent_support rs := by
  unfold need_urgent_support
  rw [List.filterMap_cons]
  have hsc : analysis_scores r.analysis = some [6, 6, 5, 6, 6] := by rw [hr]; rfl
  simp only [hsc, fallback_band_mid]
  simp

/-- A report carrying a fallback analysis is never counted as a peer
helper. -/
theorem peer_helpers_cons_fallback (r : Report) (rs : List Report)
    (n g : String) (hr : r.analysis = create_enhanced_fallback_analysis n g) :
    peer_helpers (r :: rs) = peer_helpers rs := by
  unfold peer_helpers
  rw [List.filterMap_cons]
  have hf : mg_flag r.analysis "can_help_younger_students" = false := by
    rw [hr]; rfl
  simp [hf]

/-- A report carrying a fallback analysis is always counted in the
individual-attention bucket. -/
theorem attention_cons_fallback (r : Report) (rs : List Report)
    (n g : String) (hr : r.analysis = create_enhanced_fallback_analysis n g) :
    individual_attention_students (r :: rs) =
      r.student_name :: individual_attention_students rs := by
  unfold individual_attention_students
  rw [List.filterMap_cons]
  have hf : mg_flag r.analysis "requires_individualized_attention" = true := by
    rw [hr]; rfl
  simp [hf]

/-- C10: the five Fallback Assessment scores are 6, 6, 5, 6, 6, with mean
5.8, which the aggregator classifies mid (never high, never urgent); its
flags make the student never a peer helper and always part of the
individual-attention set — so a run of all-fallback reports has empty high,
urgent and helper buckets and every student in the attention bucket. -/
theorem c10_fallback_mid_band (name grade : String) :
    analysis_scores (create_enhanced_fallback_analysis name grade)
      = some [6, 6, 5, 6, 6] ∧
    list_mean [6, 6, 5, 6, 6] = 5.8 ∧
    performance_band [6, 6, 5, 6, 6] = Band.mid ∧
    mg_flag (create_enhanced_fallback_analysis name grade)
      "can_help_younger_students" = false ∧
    mg_flag (create_enhanced_fallback_analysis name grade)
      "requires_individualized_attention" = true ∧
    (∀ reports : List Report,
       (∀ r ∈ reports, ∃ n g, r.analysis = create_enhanced_fallback_analysis n g) →
       high_performers reports = [] ∧ need_urgent_support reports = [] ∧
       peer_helpers reports = [] ∧
       individual_attention_students reports = reports.map Report.student_name) := by
  refine ⟨rfl, by with_unfolding_all decide, fallback_band_mid, rfl, rfl, ?_⟩
  intro reports
  induction reports with
  | nil => intro h; exact ⟨rfl, rfl, rfl, rfl⟩
  | cons r rs ih =>
    intro h
    obtain ⟨n, g, hr⟩ := h r (List.mem_cons_self r rs)
    obtain ⟨ih1, ih2, ih3, ih4⟩ := ih fun q hq => h q (List.mem_cons_of_mem r hq)
    refine ⟨?_, ?_, ?_, ?_⟩
    · rw [high_performers_cons_fallback r rs n g hr]; exact ih1
    · rw [need_urgent_cons_fallback r rs n g hr]; exact ih2
    · rw [peer_helpers_cons_fallback r rs n g hr]; exact ih3
    · rw [attention_cons_fallback r rs n g hr, List.map_cons, ih4]

/-- C10 witness: a single fallback report lands in no band or helper bucket
and in the individual-attention bucket. -/
theorem c10_fallback_mid_band_witness :
    high_performers [fallback_demo_report] = [] ∧
    need_urgent_support [fallback_demo_report] = [] ∧
    peer_helpers [fallback_demo_report] = [] ∧
    individual_attention_students [fallback_demo_report] = ["Asha"] := by
  have h := (c10_fallback_mid_band "Asha" "Class 4").2.2.2.2.2 [fallback_demo_report]
    (by intro r hr; simp only [List.mem_singleton] at hr; subst hr;
        exact ⟨"Asha", "Class 4", rfl⟩)
  exact ⟨h.1, h.2.1, h.2.2.1, h.2.2.2.trans rfl⟩

/-- A string always ends with the tail it was built by appending. -/
theorem ends_with_append (p t : String) : ends_with t (p ++ t) = true := by
  unfold ends_with
  rw [decide_eq_true_eq, String.data_append, List.length_append,
    Nat.add_sub_cancel, List.drop_left]

/-- C8 counterexample: even with both clock reads yielding the same
timestamp, the generated file list does not carry it on every artifact — the
class dashboard has a fixed name and the per-student images are named by id
and student name only. -/
theorem c8_timestamp_counterexample :
    ((generated_files "/tmp/run" "20250101_120000" "20250101_120000"
        [fallback_demo_report]).all (has_ts_suffix "20250101_120000")) = false ∧
    has_ts_suffix "20250101_120000" (class_dashboard_filename "/tmp/run") = false ∧
    has_ts_suffix "20250101_120000" (student_viz_filename "/tmp/run" 1 "Asha")
      = false := by
  refine ⟨?_, ?_, ?_⟩ <;> with_unfolding_all decide

/-- C8 (amended): only the PDF and the archival data file carry timestamp
suffixes, each from its own clock read; the class dashboard and the
per-student images are independent of both run timestamps. -/
theorem c8_artifact_names_amended (dir ts_pdf ts_json : String)
    (reports : List Report) :
    ends_with ("_" ++ ts_pdf ++ ".pdf") (pdf_report_filename dir ts_pdf) = true ∧
    ends_with ("_" ++ ts_json ++ ".json") (json_data_filename dir ts_json) = true ∧
    (generated_files dir ts_pdf ts_json reports)[0]?
      = some (pdf_report_filename dir ts_pdf) ∧
    (generated_files dir ts_pdf ts_json reports)[1]?
      = some (class_dashboard_filename dir) ∧
    (generated_files dir ts_pdf ts_json reports)[2]?
      = some (json_data_filename dir ts_json) ∧
    (∀ ts1 ts2 : String,
       (generated_files dir ts1 ts2 reports)[1]?
         = some (class_dashboard_filename dir)) ∧
    (∀ ts1 ts2 : String,
       (generated_files dir ts1 ts2 reports).drop 3
         = (generated_files dir ts_pdf ts_json reports).drop 3) := by
  refine ⟨?_, ?_, by simp [generated_files], by simp [generated_files],
    by simp [generated_files], fun ts1 ts2 => by simp [generated_files],
    fun ts1 ts2 => by simp [generated_files]⟩
  · have h : pdf_report_filename dir ts_pdf
        = (dir ++ "/SAHAYAK_Complete_Report") ++ ("_" ++ ts_pdf ++ ".pdf") := by
      unfold pdf_report_filename
      rw [show ("/SAHAYAK_Complete_Report_" : String)
            = "/SAHAYAK_Complete_Report" ++ "_" by decide]
      simp only [String.append_assoc]
    rw [h]
    exact ends_with_append _ _
  · have h : json_data_filename dir ts_json
        = (dir ++ "/sahayak_analysis_data") ++ ("_" ++ ts_json ++ ".json") := by
      unfold json_data_filename
      rw [show ("/sahayak_analysis_data_" : String)
            = "/sahayak_analysis_data" ++ "_" by decide]
      simp only [String.append_assoc]
    rw [h]
    exact ends_with_append _ _

/-- Encoding a report then decoding it recovers the report. -/
theorem report_roundtrip (r : Report) :
    report_of_json (report_to_json r) = some r := by
  obtain ⟨id, nm, gr, sb, ed, rm, ad, an⟩ := r
  show some (⟨((id : ℚ)).num.toNat, nm, gr, sb, ed, rm, ad, an⟩ : Report)
    = some ⟨id, nm, gr, sb, ed, rm, ad, an⟩
  rw [Rat.num_natCast, Int.toNat_natCast]

/-- Decoding an encoded report list recovers the list. -/
theorem decode_students_roundtrip (rs : List Report) :
    decode_students (rs.map report_to_json) = some rs := by
  induction rs with
  | nil => rfl
  | cons r rs ih => simp [decode_students, report_roundtrip, ih]

/-- C9: re-parsing the archival structured-data value reproduces the report
sequence passed to the assembler, field for field and in order, and the
total_students entry of the metadata equals the number of reports. -/
theorem c9_archival_round_trip (meta_date : String) (reports : List Report) :
    parse_students (archival_json meta_date reports) = some reports ∧
    metadata_total (archival_json meta_date reports)
      = some (JsonVal.num reports.length) := by
  constructor
  · show decode_students (reports.map report_to_json) = some reports
    exact decode_students_roundtrip reports
  · rfl

end Sahayak
